import Mathlib

/-!
# Shallow embedding of the WebGLMath vector/matrix library

This file embeds the arithmetic core of the WebGLMath JavaScript library
(`Vec2`, `Vec3`, `Vec4`, `Mat4`, the bulk array classes, and the
uniform-reflection layer) and proves properties of that embedding.

Modelling conventions, stated once here:

* A JavaScript number is modelled by `JSNum`: either an exact rational
  (`JSNum.num q`) or `JSNum.nan`.  Arithmetic is exact instead of IEEE-754
  binary64/binary32, so statements that the source documents as holding
  "within float32 epsilon" become exact equalities of rationals.  IEEE
  infinities are not modelled separately; a division by zero produces
  `JSNum.nan` (none of the verified properties distinguishes `Infinity`
  from `NaN`).
* A JavaScript value flowing through the library's argument-coercion
  chains is modelled by `JSVal`: `undefined`, a number, a field-bearing
  object (covering both `{x:..,y:..}` literals and vector instances,
  whose `x`/`y`/`z`/`w` getters read the backing store), or a 16-element
  array.  Truthiness, `&&`, `||` and `ToNumber` follow the ECMAScript
  rules on these values (`ToNumber` of an object or of a 16-element array
  is `NaN`; `ToNumber(undefined)` is `NaN`).
* `Float32Array` stores are modelled as exact stores (no rounding).
* Methods that overwrite every slot of `this` take the receiver as an
  explicit argument and return the new value; the receiver argument is
  unused exactly when the source overwrites all of its storage.
-/
/-- A JavaScript number: an exact rational, or `NaN`.  (IEEE infinities are
collapsed into `nan`; see the header comment.) -/
inductive JSNum where
  | num (q : ℚ)
  | nan
deriving DecidableEq, Repr

namespace JSNum

/-- JS `+` on numbers (`NaN` propagates). -/
def add : JSNum → JSNum → JSNum
  | num a, num b => num (a + b)
  | _, _ => nan

/-- JS `-` on numbers (`NaN` propagates). -/
def sub : JSNum → JSNum → JSNum
  | num a, num b => num (a - b)
  | _, _ => nan

/-- JS `*` on numbers (`NaN` propagates). -/
def mul : JSNum → JSNum → JSNum
  | num a, num b => num (a * b)
  | _, _ => nan

/-- JS `/` on numbers.  Division by zero yields `nan` in this model
(the source never relies on the sign of an infinite quotient). -/
def div : JSNum → JSNum → JSNum
  | num a, num b => if b = 0 then nan else num (a / b)
  | _, _ => nan

instance : Add JSNum := ⟨add⟩

instance : Sub JSNum := ⟨sub⟩

instance : Mul JSNum := ⟨mul⟩

instance : Div JSNum := ⟨div⟩

instance : OfNat JSNum n := ⟨num n⟩

/-- JS number truthiness: `0` and `NaN` are falsy. -/
def truthyN : JSNum → Bool
  | num q => q ≠ 0
  | nan => false

/-- JS `<` on numbers: false whenever an operand is `NaN`. -/
def lt : JSNum → JSNum → Bool
  | num a, num b => a < b
  | _, _ => false

/-- JS `==` against the literal `0.0`: false for `NaN`. -/
def eqZero : JSNum → Bool
  | num q => q = 0
  | nan => false

end JSNum

/-- JS unary minus on numbers (`NaN` propagates). -/
def JSNum.neg : JSNum → JSNum
  | num q => num (-q)
  | nan => nan

instance : Neg JSNum := ⟨JSNum.neg⟩

open JSNum in
/-- A JavaScript value as it may reach the library's coercion chains:
`undefined`, a number, an object with optional numeric fields
`x`/`y`/`z`/`w`, or a 16-element array (used by `Mat4.set`). -/
inductive JSVal where
  | undef
  | numv (n : JSNum)
  | obj (x y z w : Option JSNum)
  | arr16 (elts : Fin 16 → JSNum)

namespace JSVal

/-- ECMAScript truthiness of the modelled values: `undefined`, `0` and
`NaN` are falsy; objects and arrays are truthy. -/
def truthy : JSVal → Bool
  | undef => false
  | numv n => n.truthyN
  | obj _ _ _ _ => true
  | arr16 _ => true

/-- JS `a && b` (value-returning short-circuit conjunction). -/
def jsAnd (a b : JSVal) : JSVal := if truthy a then b else a

/-- JS `a || b` (value-returning short-circuit disjunction). -/
def jsOr (a b : JSVal) : JSVal := if truthy a then a else b

/-- `Number(v).valueOf()` / implicit `ToNumber`: `undefined` gives `NaN`;
a plain object gives `NaN` (via `"[object Object]"`); a 16-element array
gives `NaN` (its string form is not numeric). -/
def toNumber : JSVal → JSNum
  | undef => JSNum.nan
  | numv n => n
  | obj _ _ _ _ => JSNum.nan
  | arr16 _ => JSNum.nan

/-- Property read `v.x` (reading a field of a number or `undefined`-like
value yields `undefined`; on objects a missing field is `undefined`). -/
def getX : JSVal → JSVal
  | obj x _ _ _ => x.elim undef numv
  | _ => undef

/-- Property read `v.y`. -/
def getY : JSVal → JSVal
  | obj _ y _ _ => y.elim undef numv
  | _ => undef

/-- Property read `v.z`. -/
def getZ : JSVal → JSVal
  | obj _ _ z _ => z.elim undef numv
  | _ => undef

/-- Property read `v.w`. -/
def getW : JSVal → JSVal
  | obj _ _ _ w => w.elim undef numv
  | _ => undef

/-- Indexed read `v[k]` for the values the library indexes (`Mat4.set`
reads `m[0]`..`m[15]`).  Only arrays have indexed elements here; the read
is guarded by `m && ...` in the source, so the non-array fallback
`undefined` is never consumed on a live path. -/
def jsIndex : JSVal → ℕ → JSVal
  | arr16 e, k => if h : k < 16 then numv (e ⟨k, h⟩) else undef
  | _, _ => undef

end JSVal

open JSNum JSVal

/-- The additive coercion chain `u && FIELD || Number(SECOND).valueOf() || 0`
used by the vector constructors, `set`, `add`, `plus`, `sub`, `minus`,
`dot`, `Mat4.translate` and `Mat4.rotate`.  `fieldv` is the property read
(`u.x`, `u.y`, ...) and `second` is the value whose `ToNumber` is the
middle fallback (`u` itself for the first coordinate, the positional
argument for the later ones). -/
def addCoord (u fieldv second : JSVal) : JSNum :=
  toNumber (jsOr (jsOr (jsAnd u fieldv) (numv (toNumber second))) (numv (num 0)))

/-- The multiplicative coercion chain for the first coordinate:
`u && ((u.x - 1) || (Number(u).valueOf()-1) || 0) + 1`.
The result is a `JSVal` because a falsy `u` (in particular `undefined`)
is returned unchanged and only coerced by the compound assignment. -/
def mulCoordFst (u fieldv : JSVal) : JSVal :=
  jsAnd u (numv (toNumber (jsOr (jsOr (numv (toNumber fieldv - num 1))
    (numv (toNumber u - num 1))) (numv (num 0))) + num 1))

/-- The multiplicative coercion chain for the later coordinates:
`u && ((u.y - 1) || (Number(v).valueOf()-1) || (Number(u).valueOf()-1) || 0) + 1`. -/
def mulCoordSnd (u fieldv second : JSVal) : JSVal :=
  jsAnd u (numv (toNumber (jsOr (jsOr (jsOr (numv (toNumber fieldv - num 1))
    (numv (toNumber second - num 1))) (numv (toNumber u - num 1)))
    (numv (num 0))) + num 1))

/-- `Vec2`: two 32-bit float storage slots (`Vec2.js`). -/
structure Vec2 where
  s0 : JSNum
  s1 : JSNum
deriving DecidableEq, Repr

/-- `Vec3`: three storage slots (`Vec3` class). -/
structure Vec3 where
  s0 : JSNum
  s1 : JSNum
  s2 : JSNum
deriving DecidableEq, Repr

/-- `Vec4`: four storage slots (`Vec4.js`). -/
structure Vec4 where
  s0 : JSNum
  s1 : JSNum
  s2 : JSNum
  s3 : JSNum
deriving DecidableEq, Repr

/-- A `Vec2` instance seen as a JS argument: its `x`/`y` getters expose the
two storage slots; it has no `z`/`w` properties. -/
def vec2AsVal (a : Vec2) : JSVal := obj (some a.s0) (some a.s1) none none

/-- A `Vec3` instance seen as a JS argument. -/
def vec3AsVal (a : Vec3) : JSVal := obj (some a.s0) (some a.s1) (some a.s2) none

/-- A `Vec4` instance seen as a JS argument. -/
def vec4AsVal (a : Vec4) : JSVal := obj (some a.s0) (some a.s1) (some a.s2) (some a.s3)

/-- `new Vec2(u, v)` (`Vec2.js` constructor). -/
def vec2_new (u v : JSVal) : Vec2 :=
  ⟨addCoord u (getX u) u, addCoord u (getY u) v⟩

/-- `Vec2.prototype.set(u, v)`: overwrites both slots of the receiver. -/
def vec2_set (_a : Vec2) (u v : JSVal) : Vec2 :=
  ⟨addCoord u (getX u) u, addCoord u (getY u) v⟩

/-- `Vec2.prototype.add(u, v)` (`+=` per slot). -/
def vec2_add (a : Vec2) (u v : JSVal) : Vec2 :=
  ⟨a.s0 + addCoord u (getX u) u, a.s1 + addCoord u (getY u) v⟩

/-- `Vec2.prototype.plus(u, v)`: allocates a fresh result with the same
per-slot sums as `add`. -/
def vec2_plus (a : Vec2) (u v : JSVal) : Vec2 :=
  ⟨a.s0 + addCoord u (getX u) u, a.s1 + addCoord u (getY u) v⟩

/-- `Vec2.prototype.setSum(b, c)`: the fast dual-operand path; overwrites
the whole receiver with plain slotwise sums. -/
def vec2_setSum (_a b c : Vec2) : Vec2 :=
  ⟨b.s0 + c.s0, b.s1 + c.s1⟩

/-- `Vec2.prototype.mul(u, v)` (`*=` with the multiplicative coercion). -/
def vec2_mul (a : Vec2) (u v : JSVal) : Vec2 :=
  ⟨a.s0 * toNumber (mulCoordFst u (getX u)),
   a.s1 * toNumber (mulCoordSnd u (getY u) v)⟩

/-- `Vec2.prototype.div(u, v)` (`/=` with the multiplicative coercion). -/
def vec2_div (a : Vec2) (u v : JSVal) : Vec2 :=
  ⟨a.s0 / toNumber (mulCoordFst u (getX u)),
   a.s1 / toNumber (mulCoordSnd u (getY u) v)⟩

/-- `new Vec3(u, v, s)`. -/
def vec3_new (u v s : JSVal) : Vec3 :=
  ⟨addCoord u (getX u) u, addCoord u (getY u) v, addCoord u (getZ u) s⟩

/-- `Vec3.prototype.set(u, v, s)`. -/
def vec3_set (_a : Vec3) (u v s : JSVal) : Vec3 :=
  ⟨addCoord u (getX u) u, addCoord u (getY u) v, addCoord u (getZ u) s⟩

/-- `Vec3.prototype.add(u, v, s)`. -/
def vec3_add (a : Vec3) (u v s : JSVal) : Vec3 :=
  ⟨a.s0 + addCoord u (getX u) u, a.s1 + addCoord u (getY u) v,
   a.s2 + addCoord u (getZ u) s⟩

/-- `Vec3.prototype.plus(u, v, s)`. -/
def vec3_plus (a : Vec3) (u v s : JSVal) : Vec3 :=
  ⟨a.s0 + addCoord u (getX u) u, a.s1 + addCoord u (getY u) v,
   a.s2 + addCoord u (getZ u) s⟩

/-- `Vec3.prototype.setSum(b, c)`. -/
def vec3_setSum (_a b c : Vec3) : Vec3 :=
  ⟨b.s0 + c.s0, b.s1 + c.s1, b.s2 + c.s2⟩

/-- `Vec3.prototype.mul(u, v, s)`. -/
def vec3_mul (a : Vec3) (u v s : JSVal) : Vec3 :=
  ⟨a.s0 * toNumber (mulCoordFst u (getX u)),
   a.s1 * toNumber (mulCoordSnd u (getY u) v),
   a.s2 * toNumber (mulCoordSnd u (getZ u) s)⟩

/-- `Vec3.prototype.div(u, v, s)`. -/
def vec3_div (a : Vec3) (u v s : JSVal) : Vec3 :=
  ⟨a.s0 / toNumber (mulCoordFst u (getX u)),
   a.s1 / toNumber (mulCoordSnd u (getY u) v),
   a.s2 / toNumber (mulCoordSnd u (getZ u) s)⟩

/-- `new Vec4(u, v, s, t)`: the fourth slot uses the multiplicative-style
tri-state chain `(u && (u.w-1) || (Number(t).valueOf()-1) || 0) + 1`, so
`w` defaults to 1 while a present zero stays 0. -/
def vec4_new (u v s t : JSVal) : Vec4 :=
  ⟨addCoord u (getX u) u, addCoord u (getY u) v, addCoord u (getZ u) s,
   toNumber (jsOr (jsOr (jsAnd u (numv (toNumber (getW u) - num 1)))
     (numv (toNumber t - num 1))) (numv (num 0))) + num 1⟩

/-- `Vec4.prototype.set(u, v, s, t)` (same chains as the constructor). -/
def vec4_set (_a : Vec4) (u v s t : JSVal) : Vec4 :=
  ⟨addCoord u (getX u) u, addCoord u (getY u) v, addCoord u (getZ u) s,
   toNumber (jsOr (jsOr (jsAnd u (numv (toNumber (getW u) - num 1)))
     (numv (toNumber t - num 1))) (numv (num 0))) + num 1⟩

/-- `Vec4.prototype.add(u, v, s, t)`: all four slots use the additive
chain (default 0, also for `w`). -/
def vec4_add (a : Vec4) (u v s t : JSVal) : Vec4 :=
  ⟨a.s0 + addCoord u (getX u) u, a.s1 + addCoord u (getY u) v,
   a.s2 + addCoord u (getZ u) s, a.s3 + addCoord u (getW u) t⟩

/-- `Vec4.prototype.plus(u, v, s, t)`. -/
def vec4_plus (a : Vec4) (u v s t : JSVal) : Vec4 :=
  ⟨a.s0 + addCoord u (getX u) u, a.s1 + addCoord u (getY u) v,
   a.s2 + addCoord u (getZ u) s, a.s3 + addCoord u (getW u) t⟩

/-- `Vec4.prototype.setSum(b, c)`. -/
def vec4_setSum (_a b c : Vec4) : Vec4 :=
  ⟨b.s0 + c.s0, b.s1 + c.s1, b.s2 + c.s2, b.s3 + c.s3⟩

/-- `Vec4.prototype.mul(u, v, s, t)`, non-matrix branch (the
`u instanceof Mat4` branch is modelled by `vec4_transform`). -/
def vec4_mul (a : Vec4) (u v s t : JSVal) : Vec4 :=
  ⟨a.s0 * toNumber (mulCoordFst u (getX u)),
   a.s1 * toNumber (mulCoordSnd u (getY u) v),
   a.s2 * toNumber (mulCoordSnd u (getZ u) s),
   a.s3 * toNumber (mulCoordSnd u (getW u) t)⟩

/-- `Vec4.prototype.div(u, v, s, t)`. -/
def vec4_div (a : Vec4) (u v s t : JSVal) : Vec4 :=
  ⟨a.s0 / toNumber (mulCoordFst u (getX u)),
   a.s1 / toNumber (mulCoordSnd u (getY u) v),
   a.s2 / toNumber (mulCoordSnd u (getZ u) s),
   a.s3 / toNumber (mulCoordSnd u (getW u) t)⟩

/-- `Mat4`: sixteen storage slots in column-major order (`Mat4.js`);
slot `4*col + row` holds the row-major element `(row, col)`. -/
structure Mat4 where
  storage : Fin 16 → JSNum

instance : DecidableEq Mat4 := fun a b =>
  match a, b with
  | ⟨s⟩, ⟨t⟩ =>
    if h : ∀ k, s k = t k then .isTrue (by cases funext h; rfl)
    else .isFalse (by intro hc; cases hc; exact h fun _ => rfl)

/-- One off-diagonal line of `Mat4.prototype.set`:
`this.storage[slot] = m && m[r] || arguments[r] || 0` for the row-major
argument index `r`. -/
def mat4SetOff (m a : JSVal) (r : ℕ) : JSNum :=
  toNumber (jsOr (jsOr (jsAnd m (jsIndex m r)) a) (numv (num 0)))

/-- One diagonal line of `Mat4.prototype.set`:
`this.storage[slot] = (m && (m[r]-1) || (arguments[r]-1) || 0) + 1`,
the tri-state chain that keeps a present zero but defaults an absent
entry to 1. -/
def mat4SetDiag (m a : JSVal) (r : ℕ) : JSNum :=
  toNumber (jsOr (jsOr (jsAnd m (numv (toNumber (jsIndex m r) - num 1)))
    (numv (toNumber a - num 1))) (numv (num 0))) + num 1

/-- `Mat4.prototype.set(m)`.  `args k` models `arguments[k]`; the named
parameter `m` of the source is `arguments[0]`.  The sixteen entries are
listed in storage-slot order; the row-major argument index each slot
receives follows the source (`storage[0] ← m[0]`, `storage[4] ← m[1]`,
..., i.e. slot `4c+r` takes row-major index `4r+c`).  Every slot is
overwritten, so the receiver is unused. -/
def mat4_set (_t : Mat4) (args : Fin 16 → JSVal) : Mat4 :=
  let m := args 0
  ⟨![mat4SetDiag m (args 0) 0,
     mat4SetOff m (args 4) 4,
     mat4SetOff m (args 8) 8,
     mat4SetOff m (args 12) 12,
     mat4SetOff m (args 1) 1,
     mat4SetDiag m (args 5) 5,
     mat4SetOff m (args 9) 9,
     mat4SetOff m (args 13) 13,
     mat4SetOff m (args 2) 2,
     mat4SetOff m (args 6) 6,
     mat4SetDiag m (args 10) 10,
     mat4SetOff m (args 14) 14,
     mat4SetOff m (args 3) 3,
     mat4SetOff m (args 7) 7,
     mat4SetOff m (args 11) 11,
     mat4SetDiag m (args 15) 15]⟩

/-- `new Mat4(m)`: allocates a zero-filled `Float32Array(16)` and calls
`set(m)` with the single constructor argument. -/
def mat4_new (m : JSVal) : Mat4 :=
  mat4_set ⟨fun _ => num 0⟩ (fun k => if k = 0 then m else undef)

/-- The argument vector of a call with no arguments. -/
def noArgs : Fin 16 → JSVal := fun _ => undef

/-- The argument vector of a call whose single argument is the 16-element
row-major array `A` (so `arguments[0]` is the array and the rest are
`undefined`). -/
def arrArgs (A : Fin 16 → JSNum) : Fin 16 → JSVal :=
  fun k => if k = 0 then arr16 A else undef

/-- `new Mat4()`. -/
def mat4_default : Mat4 := mat4_new undef

/-- The exact identity matrix, written out from the spec sentence
"diagonal = 1, else 0" (spec-side reference value for C3). -/
def mat4IdentitySpec : Mat4 :=
  ⟨![num 1, num 0, num 0, num 0,
     num 0, num 1, num 0, num 0,
     num 0, num 0, num 1, num 0,
     num 0, num 0, num 0, num 1]⟩

/-- The storage slot behind the indexed property `k`: the source defines,
for `i, j < 4`, a property named `i + 4*j` backed by
`columnMajorIndex = j + 4*i`; solving `k = i + 4*j` gives `i = k % 4`,
`j = k / 4`. -/
def mat4PropSlot (k : Fin 16) : Fin 16 :=
  ⟨(k : ℕ) / 4 + 4 * ((k : ℕ) % 4), by omega⟩

/-- Reading the indexed property `mt[k]` (`Object.defineProperty` getter). -/
def mat4_getIndexed (mt : Mat4) (k : Fin 16) : JSNum :=
  mt.storage (mat4PropSlot k)

/-- Writing the indexed property `mt[k] = value` (the setter). -/
def mat4_setIndexed (mt : Mat4) (k : Fin 16) (value : JSNum) : Mat4 :=
  ⟨Function.update mt.storage (mat4PropSlot k) value⟩

/-- `Mat4.prototype.translate(u, v, s)`: the additive coercion chains for
`x`, `y`, `z`, then twelve in-place `+=` updates reading the last column
(slots 12..15), which itself stays unchanged. -/
def mat4_translate (mt : Mat4) (u v s : JSVal) : Mat4 :=
  let x := addCoord u (getX u) u
  let y := addCoord u (getY u) v
  let z := addCoord u (getZ u) s
  let st := mt.storage
  ⟨![st 0 + st 12 * x, st 1 + st 13 * x, st 2 + st 14 * x, st 3 + st 15 * x,
     st 4 + st 12 * y, st 5 + st 13 * y, st 6 + st 14 * y, st 7 + st 15 * y,
     st 8 + st 12 * z, st 9 + st 13 * z, st 10 + st 14 * z, st 11 + st 15 * z,
     st 12, st 13, st 14, st 15]⟩

/-- `Mat4.prototype.rotate(angle, u, v, s)`.  The source calls
`Math.cos(angle)`, `Math.sin(angle)` and `Math.sqrt`; these transcendental
evaluations are passed in as `cosa`, `sina` and `sqrtFn` (the only
abstraction in this transliteration).  The float literals `0.0001`,
`0.999` and `1.001` are read as the rationals they denote.  A near-zero
axis is replaced by the z axis; an axis with squared length outside
`[0.999, 1.001]` is renormalized by `sqrtFn`; the fourth matrix column
(slots 12..15) is untouched. -/
def mat4_rotate (sqrtFn : JSNum → JSNum) (cosa sina : JSNum)
    (u v s : JSVal) (mt : Mat4) : Mat4 :=
  let x0 := addCoord u (getX u) u
  let y0 := addCoord u (getY u) v
  let z0 := addCoord u (getZ u) s
  let axisLength2 := x0 * x0 + y0 * y0 + z0 * z0
  let xyz :=
    if JSNum.lt axisLength2 (num (1/10000)) then
      (num 0, num 0, num 1)
    else if JSNum.lt axisLength2 (num (999/1000)) ||
        JSNum.lt (num (1001/1000)) axisLength2 then
      let axisLength := sqrtFn axisLength2
      (x0 / axisLength, y0 / axisLength, z0 / axisLength)
    else
      (x0, y0, z0)
  let x := xyz.1
  let y := xyz.2.1
  let z := xyz.2.2
  let C := num 1 - cosa
  let m11 := x * x * C + cosa
  let m21 := x * y * C - z * sina
  let m31 := x * z * C + y * sina
  let m12 := y * x * C + z * sina
  let m22 := y * y * C + cosa
  let m32 := y * z * C - x * sina
  let m13 := z * x * C - y * sina
  let m23 := z * y * C + x * sina
  let m33 := z * z * C + cosa
  let st := mt.storage
  ⟨![st 0 * m11 + st 4 * m21 + st 8 * m31,
     st 1 * m11 + st 5 * m21 + st 9 * m31,
     st 2 * m11 + st 6 * m21 + st 10 * m31,
     st 3 * m11 + st 7 * m21 + st 11 * m31,
     st 0 * m12 + st 4 * m22 + st 8 * m32,
     st 1 * m12 + st 5 * m22 + st 9 * m32,
     st 2 * m12 + st 6 * m22 + st 10 * m32,
     st 3 * m12 + st 7 * m22 + st 11 * m32,
     st 0 * m13 + st 4 * m23 + st 8 * m33,
     st 1 * m13 + st 5 * m23 + st 9 * m33,
     st 2 * m13 + st 6 * m23 + st 10 * m33,
     st 3 * m13 + st 7 * m23 + st 11 * m33,
     st 12, st 13, st 14, st 15]⟩

/-- The determinant computed inside `Mat4.prototype.invert`, with the
local-variable names of the source (`a0x` are slots 0..3, `m00x` slots
4..7, `m10x` slots 8..11, `m20x` slots 12..15; `b00`..`b09`, `m010`,
`m011` are the paired 2×2 minors). -/
def mat4_det (mt : Mat4) : JSNum :=
  let a00 := mt.storage 0
  let a01 := mt.storage 1
  let a02 := mt.storage 2
  let a03 := mt.storage 3
  let m000 := mt.storage 4
  let m001 := mt.storage 5
  let m002 := mt.storage 6
  let m003 := mt.storage 7
  let m100 := mt.storage 8
  let m101 := mt.storage 9
  let m102 := mt.storage 10
  let m103 := mt.storage 11
  let m200 := mt.storage 12
  let m201 := mt.storage 13
  let m202 := mt.storage 14
  let m203 := mt.storage 15
  let b00 := a00 * m001 - a01 * m000
  let b01 := a00 * m002 - a02 * m000
  let b02 := a00 * m003 - a03 * m000
  let b03 := a01 * m002 - a02 * m001
  let b04 := a01 * m003 - a03 * m001
  let b05 := a02 * m003 - a03 * m002
  let b06 := m100 * m201 - m101 * m200
  let b07 := m100 * m202 - m102 * m200
  let b08 := m100 * m203 - m103 * m200
  let b09 := m101 * m202 - m102 * m201
  let m010 := m101 * m203 - m103 * m201
  let m011 := m102 * m203 - m103 * m202
  b00 * m011 - b01 * m010 + b02 * b09 + b03 * b08 - b04 * b07 + b05 * b06

/-- `Mat4.prototype.invert()`: if the determinant is (JS-)equal to `0.0`
the matrix is returned unchanged (`return this`, no error is thrown);
otherwise every slot is overwritten with the grouped-minor inverse scaled
by `1.0 / det`. -/
def mat4_invert (mt : Mat4) : Mat4 :=
  let a00 := mt.storage 0
  let a01 := mt.storage 1
  let a02 := mt.storage 2
  let a03 := mt.storage 3
  let m000 := mt.storage 4
  let m001 := mt.storage 5
  let m002 := mt.storage 6
  let m003 := mt.storage 7
  let m100 := mt.storage 8
  let m101 := mt.storage 9
  let m102 := mt.storage 10
  let m103 := mt.storage 11
  let m200 := mt.storage 12
  let m201 := mt.storage 13
  let m202 := mt.storage 14
  let m203 := mt.storage 15
  let b00 := a00 * m001 - a01 * m000
  let b01 := a00 * m002 - a02 * m000
  let b02 := a00 * m003 - a03 * m000
  let b03 := a01 * m002 - a02 * m001
  let b04 := a01 * m003 - a03 * m001
  let b05 := a02 * m003 - a03 * m002
  let b06 := m100 * m201 - m101 * m200
  let b07 := m100 * m202 - m102 * m200
  let b08 := m100 * m203 - m103 * m200
  let b09 := m101 * m202 - m102 * m201
  let m010 := m101 * m203 - m103 * m201
  let m011 := m102 * m203 - m103 * m202
  let det := mat4_det mt
  bif det.eqZero then mt
  else
    let invDet := num 1 / det
    ⟨![(m001 * m011 - m002 * m010 + m003 * b09) * invDet,
       (-a01 * m011 + a02 * m010 - a03 * b09) * invDet,
       (m201 * b05 - m202 * b04 + m203 * b03) * invDet,
       (-m101 * b05 + m102 * b04 - m103 * b03) * invDet,
       (-m000 * m011 + m002 * b08 - m003 * b07) * invDet,
       (a00 * m011 - a02 * b08 + a03 * b07) * invDet,
       (-m200 * b05 + m202 * b02 - m203 * b01) * invDet,
       (m100 * b05 - m102 * b02 + m103 * b01) * invDet,
       (m000 * m010 - m001 * b08 + m003 * b06) * invDet,
       (-a00 * m010 + a01 * b08 - a03 * b06) * invDet,
       (m200 * b04 - m201 * b02 + m203 * b00) * invDet,
       (-m100 * b04 + m101 * b02 - m103 * b00) * invDet,
       (-m000 * b09 + m001 * b07 - m002 * b06) * invDet,
       (a00 * b09 - a01 * b07 + a02 * b06) * invDet,
       (-m200 * b03 + m201 * b01 - m202 * b00) * invDet,
       (m100 * b03 - m101 * b01 + m102 * b00) * invDet]⟩

/-- A `Mat4` whose sixteen slots hold the finite values `A`. -/
def finMat (A : Fin 16 → ℚ) : Mat4 := ⟨fun k => num (A k)⟩

/-- The column-major storage slot of row-major position `(r, c)`:
`4*c + r`, tabulated so the slot is a numeric literal. -/
def colMajorIdx : Fin 4 → Fin 4 → Fin 16
  | 0, 0 => 0
  | 1, 0 => 1
  | 2, 0 => 2
  | 3, 0 => 3
  | 0, 1 => 4
  | 1, 1 => 5
  | 2, 1 => 6
  | 3, 1 => 7
  | 0, 2 => 8
  | 1, 2 => 9
  | 2, 2 => 10
  | 3, 2 => 11
  | 0, 3 => 12
  | 1, 3 => 13
  | 2, 3 => 14
  | 3, 3 => 15

/-- Row-major element `(r, c)` of the finite matrix `A` (column-major
storage slot `4c + r`). -/
def matEl (A : Fin 16 → ℚ) (r c : Fin 4) : ℚ :=
  A (colMajorIdx r c)

/-- The three indices of `{0,1,2,3}` other than `r`, in increasing order
(used to form 3×3 minors). -/
def fin4Others (r : Fin 4) : Fin 4 × Fin 4 × Fin 4 :=
  match r with
  | 0 => (1, 2, 3)
  | 1 => (0, 2, 3)
  | 2 => (0, 1, 3)
  | 3 => (0, 1, 2)

/-- Textbook 3×3 determinant by cofactor expansion along the first row. -/
def det3Spec (a b c d e f g h i : ℚ) : ℚ :=
  a * (e * i - f * h) - b * (d * i - f * g) + c * (d * h - e * g)

/-- The 3×3 minor of `A` obtained by deleting row `r` and column `c`. -/
def minorSpec (A : Fin 16 → ℚ) (r c : Fin 4) : ℚ :=
  let rs := fin4Others r
  let cs := fin4Others c
  det3Spec (matEl A rs.1 cs.1) (matEl A rs.1 cs.2.1) (matEl A rs.1 cs.2.2)
    (matEl A rs.2.1 cs.1) (matEl A rs.2.1 cs.2.1) (matEl A rs.2.1 cs.2.2)
    (matEl A rs.2.2 cs.1) (matEl A rs.2.2 cs.2.1) (matEl A rs.2.2 cs.2.2)

/-- The checkerboard sign `(-1)^(r+c)` of the cofactor, tabulated. -/
def cofSign : Fin 4 → Fin 4 → ℚ
  | 0, 0 => 1
  | 0, 1 => -1
  | 0, 2 => 1
  | 0, 3 => -1
  | 1, 0 => -1
  | 1, 1 => 1
  | 1, 2 => -1
  | 1, 3 => 1
  | 2, 0 => 1
  | 2, 1 => -1
  | 2, 2 => 1
  | 2, 3 => -1
  | 3, 0 => -1
  | 3, 1 => 1
  | 3, 2 => -1
  | 3, 3 => 1

/-- The cofactor of entry `(r, c)`: the signed 3×3 minor. -/
def cofactorSpec (A : Fin 16 → ℚ) (r c : Fin 4) : ℚ :=
  cofSign r c * minorSpec A r c

/-- Textbook 4×4 determinant by cofactor expansion along the first row
(spec-side reference for C4: "full general 4×4 inverse via cofactor
expansion"). -/
def det4Spec (A : Fin 16 → ℚ) : ℚ :=
  matEl A 0 0 * cofactorSpec A 0 0 + matEl A 0 1 * cofactorSpec A 0 1 +
  matEl A 0 2 * cofactorSpec A 0 2 + matEl A 0 3 * cofactorSpec A 0 3

/-- The cofactor-expansion inverse (adjugate transposed over the
determinant), written into column-major storage: slot `s`, holding
row-major entry `(s % 4, s / 4)`, receives `cof(s/4, s%4) / det`. -/
def mat4CofactorInverseSpec (A : Fin 16 → ℚ) : Mat4 :=
  ⟨fun s => num (cofactorSpec A ⟨(s : ℕ) / 4, by omega⟩ ⟨(s : ℕ) % 4, by omega⟩
      / det4Spec A)⟩

/-- `Vec2.prototype.xy01mul(m)`: row vector `(x, y, 0, 1)` times the
matrix, with perspective division by the resulting `w`. -/
def vec2_xy01mul (a : Vec2) (m : Mat4) : Vec2 :=
  let x := a.s0
  let y := a.s1
  let st := m.storage
  let w := x * st 12 + y * st 13 + st 15
  ⟨(x * st 0 + y * st 1 + st 3) / w,
   (x * st 4 + y * st 5 + st 7) / w⟩

/-- `Vec3.prototype.setxyz1Transformed(v, m)`: row vector `(x, y, z, 1)`
times the matrix, then division of the three stored components by the
homogeneous `w`.  Every slot of the receiver is overwritten. -/
def vec3_setxyz1Transformed (_t : Vec3) (v : Vec3) (m : Mat4) : Vec3 :=
  let x := v.s0
  let y := v.s1
  let z := v.s2
  let st := m.storage
  let w := x * st 12 + y * st 13 + z * st 14 + st 15
  ⟨(x * st 0 + y * st 1 + z * st 2 + st 3) / w,
   (x * st 4 + y * st 5 + z * st 6 + st 7) / w,
   (x * st 8 + y * st 9 + z * st 10 + st 11) / w⟩

/-- `Vec3.prototype.setxyz0Transformed(v, m)`: direction transform, no
translation terms and no division. -/
def vec3_setxyz0Transformed (_t : Vec3) (v : Vec3) (m : Mat4) : Vec3 :=
  let x := v.s0
  let y := v.s1
  let z := v.s2
  let st := m.storage
  ⟨x * st 0 + y * st 1 + z * st 2,
   x * st 4 + y * st 5 + z * st 6,
   x * st 8 + y * st 9 + z * st 10⟩

/-- `Vec4.prototype.setTransformed(v, m)`: full row-vector times matrix. -/
def vec4_setTransformed (_t : Vec4) (v : Vec4) (m : Mat4) : Vec4 :=
  let st := m.storage
  ⟨v.s0 * st 0 + v.s1 * st 1 + v.s2 * st 2 + v.s3 * st 3,
   v.s0 * st 4 + v.s1 * st 5 + v.s2 * st 6 + v.s3 * st 7,
   v.s0 * st 8 + v.s1 * st 9 + v.s2 * st 10 + v.s3 * st 11,
   v.s0 * st 12 + v.s1 * st 13 + v.s2 * st 14 + v.s3 * st 15⟩

/-- `Vec4.prototype.times(m)` in its `u instanceof Mat4` branch: a fresh
zero-filled `Vec4` receives `setTransformed(this, m)`. -/
def vec4_times_mat4 (a : Vec4) (m : Mat4) : Vec4 :=
  vec4_setTransformed ⟨num 0, num 0, num 0, num 0⟩ a m

/-- `Vec3Array`: `size` packed three-float elements over one flat backing
buffer, modelled as a total map from flat index to value (indices at and
beyond `3*size` are never touched by the bulk loops). -/
structure Vec3Array where
  size : ℕ
  storage : ℕ → JSNum

/-- The three storage cells of element `i` (what the zero-copy `at(i)`
view exposes). -/
def vec3Array_elem (a : Vec3Array) (i : ℕ) : Vec3 :=
  ⟨a.storage (3 * i), a.storage (3 * i + 1), a.storage (3 * i + 2)⟩

/-- `Vec3Array.prototype.xyz1mul(v, m)`: the loop
`for(i=0; i<storage.length; i+=3)` writes, at flat indices `i`, `i+1`,
`i+2`, the three dot products of `(v[i], v[i+1], v[i+2], 1)` with matrix
columns 0, 1, 2 (slots 0-3, 4-7, 8-11).  Written as a by-index function:
a flat index `k` below `3*size` belongs to the iteration with base
`k - k % 3`.  Note the loop performs no division by a homogeneous `w`. -/
def vec3Array_xyz1mul (t v : Vec3Array) (m : Mat4) : Vec3Array :=
  let st := m.storage
  ⟨t.size, fun k =>
    if k < 3 * t.size then
      match k % 3 with
      | 0 => v.storage k * st 0 + v.storage (k+1) * st 1 +
             v.storage (k+2) * st 2 + st 3
      | 1 => v.storage (k-1) * st 4 + v.storage k * st 5 +
             v.storage (k+1) * st 6 + st 7
      | _ => v.storage (k-2) * st 8 + v.storage (k-1) * st 9 +
             v.storage k * st 10 + st 11
    else t.storage k⟩

/-! ## Typed-array views (for the aliasing property of `at`)

A JS `Float32Array` is a window into one backing allocation, and
`subarray` returns a further window over the *same* allocation.  The
aliasing-relevant state is the backing buffer, modelled as a total map;
a view holds only an offset and a length, never element data, so reads
and writes through a view are reads and writes of the shared buffer. -/
/-- The backing buffer of one typed-array allocation. -/
abbrev Buffer : Type := ℕ → JSNum

/-- A typed-array view: a window into a shared backing buffer.  It holds
no element data. -/
structure TAView where
  off : ℕ
  len : ℕ

/-- `TypedArray.prototype.subarray(begin, end)`: a new view on the same
buffer, shifted by `begin` (offsets are relative to the receiving view). -/
def ta_subarray (a : TAView) (b e : ℕ) : TAView := ⟨a.off + b, e - b⟩

/-- Reading component `k` of a view from the shared buffer. -/
def ta_read (σ : Buffer) (a : TAView) (k : ℕ) : JSNum := σ (a.off + k)

/-- Writing component `k` of a view: updates the shared buffer. -/
def ta_write (σ : Buffer) (a : TAView) (k : ℕ) (x : JSNum) : Buffer :=
  fun j => if j = a.off + k then x else σ j

/-- `Vec3Array.prototype.at(index)`: the fresh `Vec3` object's storage is
`this.storage.subarray(index*3, index*3+3)`. -/
def vec3Array_at (a : TAView) (index : ℕ) : TAView :=
  ta_subarray a (index * 3) (index * 3 + 3)

/-- `Mat4Array.prototype.at(index)`: storage
`this.storage.subarray(index*16, index*16+16)`. -/
def mat4Array_at (a : TAView) (index : ℕ) : TAView :=
  ta_subarray a (index * 16) (index * 16 + 16)

/-! ## Uniform reflection (the 2019 `UniformReflection` object)

Enough of the reflection layer to follow a sampler uniform from
`addProperties` to `commitProperties`.  A `glUniform.name` of the form
`"s.n"` or `"s.n[0]"` is modelled already split into its optional struct
qualifier and base name (the source splits on `'['` and `'.'`).  WebGL
effects are modelled as the list of texture bindings
`(texture unit, texture handle)` a commit issues. -/
/-- The ESSL uniform types the reflection layer dispatches on. -/
inductive GLType where
  | float | vec2T | vec3T | vec4T | mat4T | sampler2D | samplerCube
deriving DecidableEq, Repr

/-- One active uniform as reported by program introspection. -/
structure GLUniform where
  utype : GLType
  size : ℕ
  structName : Option String
  baseName : String
deriving DecidableEq, Repr

/-- The JS constructor a reflection variable was made by (compared by
`addProperties` for collision checking). -/
inductive CtorTag where
  | vec1C | vec1ArrayC | vec2C | vec2ArrayC | vec3C | vec3ArrayC
  | vec4C | vec4ArrayC | mat4C | mat4ArrayC
  | sampler2DC | sampler2DArrayC | samplerCubeC | samplerCubeArrayC
deriving DecidableEq, Repr

/-- `ToInt32` as applied by an `Int32Array` store, for the values that
reach it here: `undefined` and `NaN` store 0; a rational is truncated
toward zero.  (The wrap modulo 2^32 is omitted: texture unit indices are
single digits.) -/
def jsToInt32 : JSNum → Int
  | num q => if 0 ≤ q then q.floor else q.ceil
  | nan => 0

/-- A reflection variable, keeping the fields the commit path reads: the
constructor tag and storage length (collision check), the sampler unit
storage (`Int32Array` contents; empty for numeric types) and the assigned
texture handles (`glTexture`; a singleton for `Sampler2D`/`SamplerCube`). -/
structure ReflVar where
  tag : CtorTag
  storageLen : ℕ
  unitStorage : List Int
  textures : List (Option ℕ)
deriving DecidableEq, Repr

/-- `UniformReflection.makeVar(gl, type, arraySize, samplerIndex)`:
dispatch on the type tag, choosing the single or the array class by
`arraySize === 1`.  `new Sampler2D(samplerIndex)` stores
`Int32Array([samplerIndex])`; the array sampler constructors assign
`storage[i] = i + baseTextureUnit` (so `i + undefined` stores 0; the
`Sampler2DArray` class itself is not among the sources, it is modelled
after the `SamplerCubeArray` constructor).  Textures start unassigned. -/
def makeVar (t : GLType) (arraySize : ℕ) (samplerIndex : JSVal) : ReflVar :=
  let noTex : List (Option ℕ) := []
  match t with
  | .float => if arraySize = 1 then ⟨.vec1C, 1, [], noTex⟩
      else ⟨.vec1ArrayC, arraySize, [], noTex⟩
  | .vec2T => if arraySize = 1 then ⟨.vec2C, 2, [], noTex⟩
      else ⟨.vec2ArrayC, 2 * arraySize, [], noTex⟩
  | .vec3T => if arraySize = 1 then ⟨.vec3C, 3, [], noTex⟩
      else ⟨.vec3ArrayC, 3 * arraySize, [], noTex⟩
  | .vec4T => if arraySize = 1 then ⟨.vec4C, 4, [], noTex⟩
      else ⟨.vec4ArrayC, 4 * arraySize, [], noTex⟩
  | .mat4T => if arraySize = 1 then ⟨.mat4C, 16, [], noTex⟩
      else ⟨.mat4ArrayC, 16 * arraySize, [], noTex⟩
  | .sampler2D =>
      if arraySize = 1 then
        ⟨.sampler2DC, 1, [jsToInt32 (toNumber samplerIndex)], [none]⟩
      else
        ⟨.sampler2DArrayC, arraySize,
          (List.range arraySize).map
            (fun i => jsToInt32 (num i + toNumber samplerIndex)),
          (List.range arraySize).map (fun _ => none)⟩
  | .samplerCube =>
      if arraySize = 1 then
        ⟨.samplerCubeC, 1, [jsToInt32 (toNumber samplerIndex)], [none]⟩
      else
        ⟨.samplerCubeArrayC, arraySize,
          (List.range arraySize).map
            (fun i => jsToInt32 (num i + toNumber samplerIndex)),
          (List.range arraySize).map (fun _ => none)⟩

/-- Reflection objects attached to one target: an insertion-ordered
association list of `(uniform name, variable)`. -/
abbrev ReflTarget : Type := List (String × ReflVar)

/-- Lookup by uniform name. -/
def reflLookup (t : ReflTarget) (n : String) : Option ReflVar :=
  (t.find? (fun p => p.1 = n)).map (fun p => p.2)

/-- The per-uniform body of `addProperties`: if a property of that name
exists, its constructor and storage length must match (else the source
throws); otherwise the variable is added. -/
def addUniformVar (t : ReflTarget) (n : String) (rv : ReflVar) :
    Except String ReflTarget :=
  match reflLookup t n with
  | some old =>
      if old.tag = rv.tag ∧ old.storageLen = rv.storageLen then .ok t
      else .error "Trying to reflect incompatible uniforms with the same name."
  | none => .ok (t ++ [(n, rv)])

/-- The two reflection stores `addProperties` fills: the plain target and
the per-struct sub-targets (`structTargets`). -/
structure ReflStores where
  top : ReflTarget
  structs : List (String × ReflTarget)
deriving DecidableEq, Repr

/-- `UniformReflection.addProperties(gl, glProgram, target, structTargets)`:
for each active uniform, `makeVar(gl, glUniform.type, glUniform.size || 1)`
— note the call passes no `samplerIndex`, so that parameter is
`undefined` — then files the variable under the base name, in the
per-struct store when the name was struct-qualified. -/
def addProperties : List GLUniform → ReflStores → Except String ReflStores
  | [], acc => .ok acc
  | g :: rest, acc =>
    let rv := makeVar g.utype (if g.size = 0 then 1 else g.size) JSVal.undef
    match g.structName with
    | none =>
        match addUniformVar acc.top g.baseName rv with
        | .error e => .error e
        | .ok top2 => addProperties rest ⟨top2, acc.structs⟩
    | some s =>
        let sub := ((acc.structs.find? (fun p => p.1 = s)).map
          (fun p => p.2)).getD []
        match addUniformVar sub g.baseName rv with
        | .error e => .error e
        | .ok sub2 =>
            let structs2 :=
              if (acc.structs.find? (fun p => p.1 = s)).isSome then
                acc.structs.map (fun p => if p.1 = s then (p.1, sub2) else p)
              else acc.structs ++ [(s, sub2)]
            addProperties rest ⟨acc.top, structs2⟩

/-- Assign a texture to a sampler reflection variable
(`Sampler2D.prototype.set`, with a plain texture handle argument). -/
def reflSetTexture (t : ReflTarget) (n : String) (tex : ℕ) : ReflTarget :=
  t.map (fun p => if p.1 = n then
    (p.1, { p.2 with textures := p.2.textures.map (fun _ => some tex) })
    else p)

/-- `commit` of one reflection variable.  The third argument is the
`textureUnitCount` that `commitProperties` passes; `Sampler2D.prototype.commit`
and `SamplerCube.prototype.commit` are declared `(gl, uniformLocation)`
and therefore ignore it, binding the construction-time unit from their
own storage.  A single sampler with no texture assigned throws; the array
sampler commits bind whatever is assigned (possibly null).  Numeric
commits upload floats and bind no texture unit. -/
def reflVarCommit (rv : ReflVar) (_textureUnitCount : ℕ) :
    Except String (List (Int × Option ℕ)) :=
  match rv.tag with
  | .sampler2DC | .samplerCubeC =>
      match rv.textures.head? with
      | some (some tex) => .ok [(rv.unitStorage.headD 0, some tex)]
      | _ => .error "No texture bound to uniform sampler."
  | .sampler2DArrayC | .samplerCubeArrayC =>
      .ok (rv.unitStorage.zip rv.textures)
  | _ => .ok []

/-- `UniformReflection.commitProperties(gl, glProgram, source, structSources)`:
iterates the same uniform list, adds `glUniform.size || 1` to a running
`textureUnitCount` *when the uniform is a sampler type, before the commit
call*, resolves the reflection property, and calls
`commit(gl, location, textureUnitCount)` on it.  A name that resolves to
no property is absorbed by the warning proxy (no effect, no error).
Returns the concatenated texture bindings. -/
def commitProperties (prog : List GLUniform) (source : ReflTarget)
    (structSources : List (String × ReflTarget)) :
    Except String (List (Int × Option ℕ)) :=
  go prog 0
where
  /-- The loop with the running `textureUnitCount`. -/
  go : List GLUniform → ℕ → Except String (List (Int × Option ℕ))
  | [], _ => .ok []
  | g :: rest, textureUnitCount =>
    let count2 :=
      if g.utype = .sampler2D ∨ g.utype = .samplerCube then
        textureUnitCount + (if g.size = 0 then 1 else g.size)
      else textureUnitCount
    let src := match g.structName with
      | some s => ((structSources.find? (fun p => p.1 = s)).map
          (fun p => p.2)).getD []
      | none => source
    match reflLookup src g.baseName with
    | none => go rest count2
    | some rv =>
        match reflVarCommit rv count2 with
        | .error e => .error e
        | .ok binds =>
            match go rest count2 with
            | .error e => .error e
            | .ok more => .ok (binds ++ more)

/-- The storage slot that receives row-major index `r` in `Mat4.set`:
`r = 4*row + col` is stored at `4*col + row`. -/
def rowMajorSlot (r : Fin 16) : Fin 16 :=
  ⟨4 * ((r : ℕ) % 4) + (r : ℕ) / 4, by omega⟩

/-- A projective test matrix: identity except that slot 15 (row-major
`(3,3)`) holds 2, so a transformed position gets homogeneous `w = 2`. -/
def mC2 : Mat4 :=
  ⟨![num 1, num 0, num 0, num 0,
     num 0, num 1, num 0, num 0,
     num 0, num 0, num 1, num 0,
     num 0, num 0, num 0, num 2]⟩

/-- One-element source array holding the vector `(1, 1, 1)`. -/
def vC2 : Vec3Array := ⟨1, fun _ => num 1⟩

/-- One-element zero-filled target array. -/
def tC2 : Vec3Array := ⟨1, fun _ => num 0⟩

/-- The determinant polynomial of `mat4_det` over the rationals (same
grouping of paired 2×2 minors), for matrices with finite entries. -/
def detQ (A : Fin 16 → ℚ) : ℚ :=
  let a00 := A 0
  let a01 := A 1
  let a02 := A 2
  let a03 := A 3
  let m000 := A 4
  let m001 := A 5
  let m002 := A 6
  let m003 := A 7
  let m100 := A 8
  let m101 := A 9
  let m102 := A 10
  let m103 := A 11
  let m200 := A 12
  let m201 := A 13
  let m202 := A 14
  let m203 := A 15
  let b00 := a00 * m001 - a01 * m000
  let b01 := a00 * m002 - a02 * m000
  let b02 := a00 * m003 - a03 * m000
  let b03 := a01 * m002 - a02 * m001
  let b04 := a01 * m003 - a03 * m001
  let b05 := a02 * m003 - a03 * m002
  let b06 := m100 * m201 - m101 * m200
  let b07 := m100 * m202 - m102 * m200
  let b08 := m100 * m203 - m103 * m200
  let b09 := m101 * m202 - m102 * m201
  let m010 := m101 * m203 - m103 * m201
  let m011 := m102 * m203 - m103 * m202
  b00 * m011 - b01 * m010 + b02 * b09 + b03 * b08 - b04 * b07 + b05 * b06

/-- The identity matrix as a finite entry array: 1 on the storage
diagonal (slots 0, 5, 10, 15), 0 elsewhere. -/
def c4IdA : Fin 16 → ℚ
  | 0 => 1
  | 5 => 1
  | 10 => 1
  | 15 => 1
  | _ => 0

/-- A program with two `sampler2D` uniforms, `texA` and `texB` (size 1,
not struct-qualified). -/
def progC9 : List GLUniform :=
  [⟨.sampler2D, 1, none, "texA"⟩, ⟨.sampler2D, 1, none, "texB"⟩]

/-- The reflection variable `addProperties` builds for each of them:
`makeVar` is called without a `samplerIndex`, so `new
Sampler2D(undefined)` stores texture unit `ToInt32(undefined) = 0`. -/
def samplerC9 : ReflVar := ⟨.sampler2DC, 1, [0], [none]⟩

/-! ## Evaluation lemmas for the number and value model -/

namespace JSNum

@[simp] theorem truthyN_num (q : ℚ) : truthyN (num q) = decide (q ≠ 0) := rfl

@[simp] theorem truthyN_nan : truthyN nan = false := rfl

@[simp] theorem add_def (a b : ℚ) : (num a) + (num b) = num (a + b) := rfl

@[simp] theorem sub_def (a b : ℚ) : (num a) - (num b) = num (a - b) := rfl

@[simp] theorem mul_def (a b : ℚ) : (num a) * (num b) = num (a * b) := rfl

@[simp] theorem div_def (a b : ℚ) : (num a) / (num b) = if b = 0 then nan else num (a / b) := rfl

@[simp] theorem nan_add (x : JSNum) : nan + x = nan := rfl

@[simp] theorem add_nan (x : JSNum) : x + nan = nan := by cases x <;> rfl

@[simp] theorem nan_sub (x : JSNum) : nan - x = nan := rfl

@[simp] theorem sub_nan (x : JSNum) : x - nan = nan := by cases x <;> rfl

@[simp] theorem nan_mul (x : JSNum) : nan * x = nan := rfl

@[simp] theorem mul_nan (x : JSNum) : x * nan = nan := by cases x <;> rfl

@[simp] theorem nan_div (x : JSNum) : nan / x = nan := rfl

@[simp] theorem div_nan (x : JSNum) : x / nan = nan := by cases x <;> rfl

end JSNum

@[simp] theorem JSNum.neg_def (q : ℚ) : -(num q) = num (-q) := rfl

@[simp] theorem JSNum.neg_nan : -(nan) = nan := rfl

namespace JSVal

@[simp] theorem truthy_undef : truthy undef = false := rfl

@[simp] theorem truthy_numv (n : JSNum) : truthy (numv n) = n.truthyN := rfl

@[simp] theorem truthy_obj (x y z w : Option JSNum) :
    truthy (obj x y z w) = true := rfl

@[simp] theorem truthy_arr16 (e : Fin 16 → JSNum) : truthy (arr16 e) = true := rfl

@[simp] theorem toNumber_undef : toNumber undef = JSNum.nan := rfl

@[simp] theorem toNumber_numv (n : JSNum) : toNumber (numv n) = n := rfl

@[simp] theorem toNumber_obj (x y z w : Option JSNum) :
    toNumber (obj x y z w) = JSNum.nan := rfl

@[simp] theorem toNumber_arr16 (e : Fin 16 → JSNum) :
    toNumber (arr16 e) = JSNum.nan := rfl

end JSVal

/-- Helper: on a truthy argument whose relevant field holds the finite
number `q`, the additive coercion chain returns exactly `q` (a nonzero
`q` is taken directly; a zero `q` falls through to the final `|| 0`). -/
theorem addCoord_truthy_finite (u : JSVal) (hu : truthy u = true) (q : ℚ)
    (second : JSVal) (hs : (toNumber second).truthyN = false) :
    addCoord u (numv (num q)) second = num q := by
  by_cases hq : q = 0 <;> simp [addCoord, jsAnd, jsOr, hu, hs, hq]

/-! ## Helper lemmas -/

@[simp] theorem getX_vec2AsVal (a : Vec2) : getX (vec2AsVal a) = numv a.s0 := rfl

@[simp] theorem getY_vec2AsVal (a : Vec2) : getY (vec2AsVal a) = numv a.s1 := rfl

@[simp] theorem getX_vec3AsVal (a : Vec3) : getX (vec3AsVal a) = numv a.s0 := rfl

@[simp] theorem getY_vec3AsVal (a : Vec3) : getY (vec3AsVal a) = numv a.s1 := rfl

@[simp] theorem getZ_vec3AsVal (a : Vec3) : getZ (vec3AsVal a) = numv a.s2 := rfl

@[simp] theorem getX_vec4AsVal (a : Vec4) : getX (vec4AsVal a) = numv a.s0 := rfl

@[simp] theorem getY_vec4AsVal (a : Vec4) : getY (vec4AsVal a) = numv a.s1 := rfl

@[simp] theorem getZ_vec4AsVal (a : Vec4) : getZ (vec4AsVal a) = numv a.s2 := rfl

@[simp] theorem getW_vec4AsVal (a : Vec4) : getW (vec4AsVal a) = numv a.s3 := rfl

/-- `vec2AsVal` and friends are objects, hence truthy. -/
@[simp] theorem truthy_vec2AsVal (a : Vec2) : truthy (vec2AsVal a) = true := rfl

@[simp] theorem truthy_vec3AsVal (a : Vec3) : truthy (vec3AsVal a) = true := rfl

@[simp] theorem truthy_vec4AsVal (a : Vec4) : truthy (vec4AsVal a) = true := rfl

@[simp] theorem getX_obj (x y z w : Option JSNum) :
    getX (obj x y z w) = x.elim undef numv := rfl

@[simp] theorem getY_obj (x y z w : Option JSNum) :
    getY (obj x y z w) = y.elim undef numv := rfl

@[simp] theorem getZ_obj (x y z w : Option JSNum) :
    getZ (obj x y z w) = z.elim undef numv := rfl

@[simp] theorem getW_obj (x y z w : Option JSNum) :
    getW (obj x y z w) = w.elim undef numv := rfl

/-- The additive chain on an object argument whose relevant field holds
the finite number `q` returns exactly `q`, whenever the middle fallback
coerces to a falsy number (an object or `undefined`). -/
theorem addCoord_asVal (q : ℚ) (x y z w : Option JSNum) (second : JSVal)
    (hs : (toNumber second).truthyN = false) :
    addCoord (obj x y z w) (numv (num q)) second = num q :=
  addCoord_truthy_finite (obj x y z w) rfl q second hs

/-- The `w`-slot tri-state chain of `Vec4`, on an object argument whose
`w` field holds the finite number `q`, with an absent positional
fallback: the stored value is exactly `q` (a present zero survives, an
absent value would default to 1). -/
theorem wChain_asVal (q : ℚ) (x y z w : Option JSNum) :
    toNumber (jsOr (jsOr (jsAnd (obj x y z w) (numv (num (q - 1))))
      (numv JSNum.nan)) (numv (num 0))) + num 1 = num q := by
  by_cases h1 : q = 1
  · simp [jsAnd, jsOr, h1]
  · simp [jsAnd, jsOr, sub_ne_zero, h1]

/-! ## Literal-index reduction for 16-entry storage vectors -/
@[simp] theorem vec16_at_0 {α : Type} (a0 a1 a2 a3 a4 a5 a6 a7 a8 a9 a10 a11 a12 a13 a14 a15 : α) :
    (![a0,a1,a2,a3,a4,a5,a6,a7,a8,a9,a10,a11,a12,a13,a14,a15]) (0 : Fin 16) = a0 := rfl

@[simp] theorem vec16_at_1 {α : Type} (a0 a1 a2 a3 a4 a5 a6 a7 a8 a9 a10 a11 a12 a13 a14 a15 : α) :
    (![a0,a1,a2,a3,a4,a5,a6,a7,a8,a9,a10,a11,a12,a13,a14,a15]) (1 : Fin 16) = a1 := rfl

@[simp] theorem vec16_at_2 {α : Type} (a0 a1 a2 a3 a4 a5 a6 a7 a8 a9 a10 a11 a12 a13 a14 a15 : α) :
    (![a0,a1,a2,a3,a4,a5,a6,a7,a8,a9,a10,a11,a12,a13,a14,a15]) (2 : Fin 16) = a2 := rfl

@[simp] theorem vec16_at_3 {α : Type} (a0 a1 a2 a3 a4 a5 a6 a7 a8 a9 a10 a11 a12 a13 a14 a15 : α) :
    (![a0,a1,a2,a3,a4,a5,a6,a7,a8,a9,a10,a11,a12,a13,a14,a15]) (3 : Fin 16) = a3 := rfl

@[simp] theorem vec16_at_4 {α : Type} (a0 a1 a2 a3 a4 a5 a6 a7 a8 a9 a10 a11 a12 a13 a14 a15 : α) :
    (![a0,a1,a2,a3,a4,a5,a6,a7,a8,a9,a10,a11,a12,a13,a14,a15]) (4 : Fin 16) = a4 := rfl

@[simp] theorem vec16_at_5 {α : Type} (a0 a1 a2 a3 a4 a5 a6 a7 a8 a9 a10 a11 a12 a13 a14 a15 : α) :
    (![a0,a1,a2,a3,a4,a5,a6,a7,a8,a9,a10,a11,a12,a13,a14,a15]) (5 : Fin 16) = a5 := rfl

@[simp] theorem vec16_at_6 {α : Type} (a0 a1 a2 a3 a4 a5 a6 a7 a8 a9 a10 a11 a12 a13 a14 a15 : α) :
    (![a0,a1,a2,a3,a4,a5,a6,a7,a8,a9,a10,a11,a12,a13,a14,a15]) (6 : Fin 16) = a6 := rfl

@[simp] theorem vec16_at_7 {α : Type} (a0 a1 a2 a3 a4 a5 a6 a7 a8 a9 a10 a11 a12 a13 a14 a15 : α) :
    (![a0,a1,a2,a3,a4,a5,a6,a7,a8,a9,a10,a11,a12,a13,a14,a15]) (7 : Fin 16) = a7 := rfl

@[simp] theorem vec16_at_8 {α : Type} (a0 a1 a2 a3 a4 a5 a6 a7 a8 a9 a10 a11 a12 a13 a14 a15 : α) :
    (![a0,a1,a2,a3,a4,a5,a6,a7,a8,a9,a10,a11,a12,a13,a14,a15]) (8 : Fin 16) = a8 := rfl

@[simp] theorem vec16_at_9 {α : Type} (a0 a1 a2 a3 a4 a5 a6 a7 a8 a9 a10 a11 a12 a13 a14 a15 : α) :
    (![a0,a1,a2,a3,a4,a5,a6,a7,a8,a9,a10,a11,a12,a13,a14,a15]) (9 : Fin 16) = a9 := rfl

@[simp] theorem vec16_at_10 {α : Type} (a0 a1 a2 a3 a4 a5 a6 a7 a8 a9 a10 a11 a12 a13 a14 a15 : α) :
    (![a0,a1,a2,a3,a4,a5,a6,a7,a8,a9,a10,a11,a12,a13,a14,a15]) (10 : Fin 16) = a10 := rfl

@[simp] theorem vec16_at_11 {α : Type} (a0 a1 a2 a3 a4 a5 a6 a7 a8 a9 a10 a11 a12 a13 a14 a15 : α) :
    (![a0,a1,a2,a3,a4,a5,a6,a7,a8,a9,a10,a11,a12,a13,a14,a15]) (11 : Fin 16) = a11 := rfl

@[simp] theorem vec16_at_12 {α : Type} (a0 a1 a2 a3 a4 a5 a6 a7 a8 a9 a10 a11 a12 a13 a14 a15 : α) :
    (![a0,a1,a2,a3,a4,a5,a6,a7,a8,a9,a10,a11,a12,a13,a14,a15]) (12 : Fin 16) = a12 := rfl

@[simp] theorem vec16_at_13 {α : Type} (a0 a1 a2 a3 a4 a5 a6 a7 a8 a9 a10 a11 a12 a13 a14 a15 : α) :
    (![a0,a1,a2,a3,a4,a5,a6,a7,a8,a9,a10,a11,a12,a13,a14,a15]) (13 : Fin 16) = a13 := rfl

@[simp] theorem vec16_at_14 {α : Type} (a0 a1 a2 a3 a4 a5 a6 a7 a8 a9 a10 a11 a12 a13 a14 a15 : α) :
    (![a0,a1,a2,a3,a4,a5,a6,a7,a8,a9,a10,a11,a12,a13,a14,a15]) (14 : Fin 16) = a14 := rfl

@[simp] theorem vec16_at_15 {α : Type} (a0 a1 a2 a3 a4 a5 a6 a7 a8 a9 a10 a11 a12 a13 a14 a15 : α) :
    (![a0,a1,a2,a3,a4,a5,a6,a7,a8,a9,a10,a11,a12,a13,a14,a15]) (15 : Fin 16) = a15 := rfl

/-! ## C1: `setSum` agrees with `plus` and with `set` followed by `add` -/
/-- C1: for same-arity vectors with finite components (components are
quantified as rationals, which is exactly the finiteness restriction),
the fast path `a.setSum(b, c)`, the allocating path `b.plus(c)` and the
path `a.set(b).add(c)` store the same component values, for `Vec2`,
`Vec3` and `Vec4` alike.  In this exact-arithmetic model, "equal within
float32 epsilon" is exact equality. -/
theorem C1_setSum_plus_setAdd_agree :
    (∀ (a : Vec2) (b0 b1 c0 c1 : ℚ),
      vec2_setSum a ⟨num b0, num b1⟩ ⟨num c0, num c1⟩ =
        vec2_plus ⟨num b0, num b1⟩ (vec2AsVal ⟨num c0, num c1⟩) undef ∧
      vec2_setSum a ⟨num b0, num b1⟩ ⟨num c0, num c1⟩ =
        vec2_add (vec2_set a (vec2AsVal ⟨num b0, num b1⟩) undef)
          (vec2AsVal ⟨num c0, num c1⟩) undef) ∧
    (∀ (a : Vec3) (b0 b1 b2 c0 c1 c2 : ℚ),
      vec3_setSum a ⟨num b0, num b1, num b2⟩ ⟨num c0, num c1, num c2⟩ =
        vec3_plus ⟨num b0, num b1, num b2⟩
          (vec3AsVal ⟨num c0, num c1, num c2⟩) undef undef ∧
      vec3_setSum a ⟨num b0, num b1, num b2⟩ ⟨num c0, num c1, num c2⟩ =
        vec3_add (vec3_set a (vec3AsVal ⟨num b0, num b1, num b2⟩) undef undef)
          (vec3AsVal ⟨num c0, num c1, num c2⟩) undef undef) ∧
    (∀ (a : Vec4) (b0 b1 b2 b3 c0 c1 c2 c3 : ℚ),
      vec4_setSum a ⟨num b0, num b1, num b2, num b3⟩
          ⟨num c0, num c1, num c2, num c3⟩ =
        vec4_plus ⟨num b0, num b1, num b2, num b3⟩
          (vec4AsVal ⟨num c0, num c1, num c2, num c3⟩) undef undef undef ∧
      vec4_setSum a ⟨num b0, num b1, num b2, num b3⟩
          ⟨num c0, num c1, num c2, num c3⟩ =
        vec4_add
          (vec4_set a (vec4AsVal ⟨num b0, num b1, num b2, num b3⟩)
            undef undef undef)
          (vec4AsVal ⟨num c0, num c1, num c2, num c3⟩) undef undef undef) := by
  refine ⟨fun a b0 b1 c0 c1 => ⟨?_, ?_⟩,
    fun a b0 b1 b2 c0 c1 c2 => ⟨?_, ?_⟩,
    fun a b0 b1 b2 b3 c0 c1 c2 c3 => ⟨?_, ?_⟩⟩ <;>
    simp [vec2_setSum, vec2_plus, vec2_add, vec2_set,
      vec3_setSum, vec3_plus, vec3_add, vec3_set,
      vec4_setSum, vec4_plus, vec4_add, vec4_set,
      vec2AsVal, vec3AsVal, vec4AsVal, addCoord_asVal, wChain_asVal]

/-! ## C2: bulk `xyz1mul` versus the scalar `setxyz1Transformed` -/

/-- C2 counterexample: on the one-element array `(1,1,1)` and the matrix
`mC2`, the bulk `xyz1mul` writes `(1, 1, 1)` while the scalar
`setxyz1Transformed` yields `(1/2, 1/2, 1/2)` (it divides by the
homogeneous `w = 2`; the bulk loop performs no such division). -/
theorem C2_bulk_xyz1mul_counterexample :
    vec3Array_elem (vec3Array_xyz1mul tC2 vC2 mC2) 0 ≠
      vec3_setxyz1Transformed ⟨num 0, num 0, num 0⟩
        (vec3Array_elem vC2 0) mC2 := by
  simp [vec3Array_elem, vec3Array_xyz1mul, vec3_setxyz1Transformed,
    tC2, vC2, mC2]

/-- C2 (amended): the bulk `xyz1mul` fills each element `i` of the
target with the row vector `(x, y, z, 1)` times the matrix, truncated to
the first three components and **without** the perspective division by
the homogeneous `w`: element `i` equals the direction transform
(`setxyz0Transformed`) of source element `i` plus the translation row
`(storage 3, storage 7, storage 11)`.  (It therefore agrees with the
scalar `setxyz1Transformed` only when that `w` is 1;
`C2_bulk_xyz1mul_counterexample` shows the original claim fails.) -/
theorem C2_bulk_xyz1mul_no_perspective_division :
    ∀ (t v : Vec3Array) (m : Mat4) (i : ℕ), i < t.size →
      vec3Array_elem (vec3Array_xyz1mul t v m) i =
        vec3_setSum ⟨num 0, num 0, num 0⟩
          (vec3_setxyz0Transformed ⟨num 0, num 0, num 0⟩
            (vec3Array_elem v i) m)
          ⟨m.storage 3, m.storage 7, m.storage 11⟩ := by
  intro t v m i h
  have b0 : 3 * i < 3 * t.size := by omega
  have b1 : 3 * i + 1 < 3 * t.size := by omega
  have b2 : 3 * i + 2 < 3 * t.size := by omega
  have e0 : (3 * i) % 3 = 0 := by omega
  have e1 : (3 * i + 1) % 3 = 1 := by omega
  have e2 : (3 * i + 2) % 3 = 2 := by omega
  have i1 : 3 * i + 1 - 1 = 3 * i := by omega
  have i2 : 3 * i + 2 - 2 = 3 * i := by omega
  have i3 : 3 * i + 2 - 1 = 3 * i + 1 := by omega
  simp [vec3Array_elem, vec3Array_xyz1mul, vec3_setSum,
    vec3_setxyz0Transformed, b0, b1, b2, e0, e1, e2, i1, i2, i3]

/-- Witness for C2: the amended bulk/scalar relation instantiated on the
concrete one-element arrays and matrix above. -/
theorem C2_bulk_xyz1mul_no_perspective_division_witness :
    0 < tC2.size ∧
      vec3Array_elem (vec3Array_xyz1mul tC2 vC2 mC2) 0 =
        vec3_setSum ⟨num 0, num 0, num 0⟩
          (vec3_setxyz0Transformed ⟨num 0, num 0, num 0⟩
            (vec3Array_elem vC2 0) mC2)
          ⟨mC2.storage 3, mC2.storage 7, mC2.storage 11⟩ :=
  ⟨by decide,
    C2_bulk_xyz1mul_no_perspective_division tC2 vC2 mC2 0 (by decide)⟩

/-! ## C3 and C6: `Mat4.set` storage and the indexed properties -/

/-- An off-diagonal `Mat4.set` line on a 16-element array of finite
values stores exactly the array entry (a present zero falls through the
truthiness chain to the final `|| 0`, which is again 0). -/
theorem mat4SetOff_arr (A : Fin 16 → ℚ) (r : ℕ) (h : r < 16) :
    mat4SetOff (arr16 (fun k => num (A k))) undef r = num (A ⟨r, h⟩) := by
  by_cases h0 : A ⟨r, h⟩ = 0 <;>
    simp [mat4SetOff, jsAnd, jsOr, jsIndex, h, h0]

/-- A diagonal `Mat4.set` line on a 16-element array of finite values
stores exactly the array entry, for any fallback argument that coerces
to `NaN` (the array itself at index 0, `undefined` elsewhere): an entry
equal to 1 makes `m[r]-1` falsy and the chain ends at `0 + 1 = 1`. -/
theorem mat4SetDiag_arr (A : Fin 16 → ℚ) (a : JSVal)
    (ha : toNumber a = JSNum.nan) (r : ℕ) (h : r < 16) :
    mat4SetDiag (arr16 (fun k => num (A k))) a r = num (A ⟨r, h⟩) := by
  by_cases h1 : A ⟨r, h⟩ = 1 <;>
    simp [mat4SetDiag, jsAnd, jsOr, jsIndex, h, ha, h1, sub_ne_zero]

/-- `Mat4.set` with a single 16-element array argument of finite values
stores entry `r` at storage slot `rowMajorSlot r`, exactly. -/
theorem mat4_set_arr_storage (A : Fin 16 → ℚ) (mt : Mat4) (r : Fin 16) :
    (mat4_set mt (arrArgs (fun k => num (A k)))).storage (rowMajorSlot r) =
      num (A r) := by
  fin_cases r
  · exact mat4SetDiag_arr A (arr16 fun k => num (A k)) rfl 0 (by omega)
  · exact mat4SetOff_arr A 1 (by omega)
  · exact mat4SetOff_arr A 2 (by omega)
  · exact mat4SetOff_arr A 3 (by omega)
  · exact mat4SetOff_arr A 4 (by omega)
  · exact mat4SetDiag_arr A undef rfl 5 (by omega)
  · exact mat4SetOff_arr A 6 (by omega)
  · exact mat4SetOff_arr A 7 (by omega)
  · exact mat4SetOff_arr A 8 (by omega)
  · exact mat4SetOff_arr A 9 (by omega)
  · exact mat4SetDiag_arr A undef rfl 10 (by omega)
  · exact mat4SetOff_arr A 11 (by omega)
  · exact mat4SetOff_arr A 12 (by omega)
  · exact mat4SetOff_arr A 13 (by omega)
  · exact mat4SetOff_arr A 14 (by omega)
  · exact mat4SetDiag_arr A undef rfl 15 (by omega)

/-- C3 counterexample: the claim quantifies over *every* 16-element
array; at the concrete all-`NaN` array, `set` stores `1` at the diagonal
slot 0 (the `NaN` entry is falsy in the tri-state chain and the absent
default wins), so the stored value is not the value of `A`. -/
theorem C3_set_nan_array_counterexample :
    (mat4_set mat4IdentitySpec
        (arrArgs (fun _ => JSNum.nan))).storage 0 = num 1 ∧
      num 1 ≠ (fun _ : Fin 16 => JSNum.nan) 0 := by
  constructor
  · simp [mat4_set, mat4SetDiag, arrArgs, jsAnd, jsOr, jsIndex]
  · simp

/-- C3 (amended): `new Mat4()` and `set()` with no arguments yield the
exact identity; `set(A)` for a 16-element row-major array `A` of finite
values stores exactly the values of `A` — including a present zero on
the diagonal.  (The original claim quantified over arrays with `NaN`
entries as well; `C3_set_nan_array_counterexample` shows such an entry
is replaced by the default.) -/
theorem C3_set_identity_and_exact_store :
    mat4_new undef = mat4IdentitySpec ∧
    (∀ mt : Mat4, mat4_set mt noArgs = mat4IdentitySpec) ∧
    (∀ (A : Fin 16 → ℚ) (mt : Mat4) (r : Fin 16),
      (mat4_set mt (arrArgs (fun k => num (A k)))).storage (rowMajorSlot r) =
        num (A r)) := by
  have hnoargs : ∀ mt : Mat4, mat4_set mt noArgs = mat4IdentitySpec := by
    intro mt
    apply congrArg Mat4.mk
    funext s
    fin_cases s <;>
      simp [mat4_set, mat4SetDiag, mat4SetOff, noArgs, jsAnd, jsOr,
        mat4IdentitySpec]
  refine ⟨?_, hnoargs, mat4_set_arr_storage⟩
  have harg : (fun k : Fin 16 => if k = 0 then undef else undef) = noArgs := by
    funext k
    simp [noArgs]
  rw [mat4_new, harg]
  exact hnoargs _

/-- C6 counterexample: at the all-`NaN` array and linear index 1, the
indexed read of `new Mat4(A)` returns the stored default 0, not the
`float32` value `NaN` of `A[1]`. -/
theorem C6_indexed_nan_counterexample :
    mat4_getIndexed (mat4_new (arr16 (fun _ => JSNum.nan))) 1 = num 0 ∧
      num 0 ≠ (fun _ : Fin 16 => JSNum.nan) 1 := by
  constructor
  · simp [mat4_getIndexed, mat4PropSlot, mat4_new, mat4_set, mat4SetOff,
      jsAnd, jsOr, jsIndex]
  · simp

/-- C6 (amended): reading or writing the indexed property `i + 4*j`
accesses storage slot `j + 4*i`; and for every 16-element row-major
array of finite values, `(new Mat4(A))[k] = A[k]` for every linear index
`k`.  (At a `NaN` entry the round-trip fails —
`C6_indexed_nan_counterexample` — because `set` stores the default.) -/
theorem C6_indexed_property_mapping :
    (∀ (mt : Mat4) (i j : Fin 4) (value : JSNum),
      mat4_getIndexed mt
          ⟨(i : ℕ) + 4 * (j : ℕ), by have := i.isLt; have := j.isLt; omega⟩ =
        mt.storage
          ⟨(j : ℕ) + 4 * (i : ℕ), by have := i.isLt; have := j.isLt; omega⟩ ∧
      mat4_setIndexed mt
          ⟨(i : ℕ) + 4 * (j : ℕ), by have := i.isLt; have := j.isLt; omega⟩
          value =
        ⟨Function.update mt.storage
          ⟨(j : ℕ) + 4 * (i : ℕ), by have := i.isLt; have := j.isLt; omega⟩
          value⟩) ∧
    (∀ (A : Fin 16 → ℚ) (k : Fin 16),
      mat4_getIndexed (mat4_new (arr16 (fun r => num (A r)))) k =
        num (A k)) := by
  constructor
  · intro mt i j value
    have hps : mat4PropSlot
        ⟨(i : ℕ) + 4 * (j : ℕ), by have := i.isLt; have := j.isLt; omega⟩ =
        ⟨(j : ℕ) + 4 * (i : ℕ), by have := i.isLt; have := j.isLt; omega⟩ := by
      apply Fin.ext
      simp only [mat4PropSlot]
      have := i.isLt
      have := j.isLt
      omega
    exact ⟨by simp [mat4_getIndexed, hps], by simp [mat4_setIndexed, hps]⟩
  · intro A k
    have hps : mat4PropSlot k = rowMajorSlot k := by
      apply Fin.ext
      simp only [mat4PropSlot, rowMajorSlot]
      omega
    rw [mat4_getIndexed, hps]
    exact mat4_set_arr_storage A _ k

/-! ## C4: `invert` — silent no-op on singular input, cofactor inverse else -/

theorem mat4_det_finMat (A : Fin 16 → ℚ) :
    mat4_det (finMat A) = num (detQ A) := rfl

@[simp] theorem finMat_storage (A : Fin 16 → ℚ) (k : Fin 16) :
    (finMat A).storage k = num (A k) := rfl

/-- C4: if the determinant computed by cofactor expansion is exactly 0,
`invert()` leaves all 16 storage slots unchanged and returns normally
(the embedding is a total function returning the receiver; the source
has no throw on this path); for a matrix of finite entries with nonzero
determinant, `invert()` overwrites the storage with the textbook
cofactor-expansion inverse `adj^T / det`. -/
theorem C4_invert_singular_noop_and_cofactor_inverse :
    (∀ mt : Mat4, (mat4_det mt).eqZero = true → mat4_invert mt = mt) ∧
    (∀ A : Fin 16 → ℚ, (mat4_det (finMat A)).eqZero = false →
      mat4_invert (finMat A) = mat4CofactorInverseSpec A) := by
  constructor
  · intro mt h
    simp [mat4_invert, h]
  · intro A h
    have hne : detQ A ≠ 0 := by
      rw [mat4_det_finMat] at h
      simpa [JSNum.eqZero] using h
    have hD : det4Spec A = detQ A := by
      simp only [det4Spec, cofactorSpec, cofSign, minorSpec, matEl,
        colMajorIdx, det3Spec, fin4Others, detQ]
      ring
    apply congrArg Mat4.mk
    funext s
    fin_cases s <;>
    · simp [mat4_invert, mat4_det_finMat, JSNum.eqZero, hne,
        mat4CofactorInverseSpec, cofactorSpec, cofSign, minorSpec, matEl,
        colMajorIdx, det3Spec, fin4Others]
      rw [hD]
      field_simp
      ring

/-- Witness for C4: the zero matrix (determinant exactly 0) is returned
unchanged, and the identity matrix (determinant 1) is overwritten with
its cofactor-expansion inverse. -/
theorem C4_invert_witness :
    (mat4_det (finMat (fun _ => (0 : ℚ)))).eqZero = true ∧
    mat4_invert (finMat (fun _ => (0 : ℚ))) = finMat (fun _ => (0 : ℚ)) ∧
    (mat4_det (finMat c4IdA)).eqZero = false ∧
    mat4_invert (finMat c4IdA) = mat4CofactorInverseSpec c4IdA := by
  have h1 : (mat4_det (finMat (fun _ => (0 : ℚ)))).eqZero = true := by
    rw [mat4_det_finMat]
    norm_num [JSNum.eqZero, detQ]
  have h2 : (mat4_det (finMat c4IdA)).eqZero = false := by
    rw [mat4_det_finMat]
    norm_num [JSNum.eqZero, detQ, c4IdA]
  exact ⟨h1, C4_invert_singular_noop_and_cofactor_inverse.1 _ h1, h2,
    C4_invert_singular_noop_and_cofactor_inverse.2 c4IdA h2⟩

/-! ## C5: the end-to-end translate / rotate scenario -/
/-- C5: `new Vec2(1,2)` transformed via `xy01mul` by
`new Mat4().translate(3,4)` yields exactly `(4, 6)`; and `new
Vec4(1,2,3,1)` transformed via `times` (the matrix branch of `mul`) by
`new Mat4().rotate(PI/2, {z:1})` yields `(-2, 1, 3, 1)`.  The rotate
call is instantiated with `cosa = 0`, `sina = 1`, the exact real values
of `cos(PI/2)` and `sin(PI/2)` (the claim asks for the result
"approximately", absorbing the float error of `Math.cos(Math.PI/2)`);
the result holds for every `sqrtFn` because the unit axis `{z:1}` takes
the no-renormalization branch. -/
theorem C5_translate_rotate_end_to_end :
    ∀ sqrtFn : JSNum → JSNum,
      vec2_xy01mul (vec2_new (numv (num 1)) (numv (num 2)))
        (mat4_translate mat4_default (numv (num 3)) (numv (num 4)) undef) =
        ⟨num 4, num 6⟩ ∧
      vec4_times_mat4
        (vec4_new (numv (num 1)) (numv (num 2)) (numv (num 3)) (numv (num 1)))
        (mat4_rotate sqrtFn (num 0) (num 1) (obj none none (some (num 1)) none)
          undef undef mat4_default) =
        ⟨num (-2), num 1, num 3, num 1⟩ := by
  intro sqrtFn
  constructor
  · simp [vec2_xy01mul, vec2_new, mat4_translate, mat4_default, mat4_new,
      mat4_set, mat4SetDiag, mat4SetOff, noArgs, addCoord, jsAnd, jsOr,
      jsIndex, getX, getY, getZ]
    norm_num
  · simp [vec4_times_mat4, vec4_setTransformed, vec4_new, mat4_rotate,
      mat4_default, mat4_new, mat4_set, mat4SetDiag, mat4SetOff, noArgs,
      addCoord, jsAnd, jsOr, jsIndex, getX, getY, getZ, getW, JSNum.lt]
    norm_num

/-! ## C7: `Vec4` defaults and the present-zero `w` -/
/-- C7: `new Vec4()` and `set()` with no arguments yield `(0, 0, 0, 1)`
(`w` defaults to 1, `x`, `y`, `z` to 0); and a present-but-zero `w` is
honored: any object argument with `w === 0` stores `w = 0`, both in the
constructor and in `set`, and so does the positional call `set(1,2,3,0)`;
`new Vec4({x:1,y:2,z:3,w:0})` stores `(1,2,3,0)`. -/
theorem C7_vec4_default_w_one_and_present_zero :
    vec4_new undef undef undef undef = ⟨num 0, num 0, num 0, num 1⟩ ∧
    (∀ a : Vec4, vec4_set a undef undef undef undef =
      ⟨num 0, num 0, num 0, num 1⟩) ∧
    (∀ x y z : Option JSNum,
      (vec4_new (obj x y z (some (num 0))) undef undef undef).s3 = num 0) ∧
    (∀ (a : Vec4) (x y z : Option JSNum),
      (vec4_set a (obj x y z (some (num 0))) undef undef undef).s3 = num 0) ∧
    vec4_new (obj (some (num 1)) (some (num 2)) (some (num 3)) (some (num 0)))
      undef undef undef = ⟨num 1, num 2, num 3, num 0⟩ ∧
    (∀ a : Vec4, vec4_set a (numv (num 1)) (numv (num 2)) (numv (num 3))
      (numv (num 0)) = ⟨num 1, num 2, num 3, num 0⟩) := by
  refine ⟨?_, fun a => ?_, fun x y z => ?_, fun a x y z => ?_, ?_, fun a => ?_⟩ <;>
    simp [vec4_new, vec4_set, jsAnd, jsOr, getW, getX, getY, getZ, addCoord]

/-! ## C8: `at` returns zero-copy aliasing views -/
/-- C8: for any array view `a` and element index `i`, `at(i)` is a pure
offset window (`subarray`) on the same backing buffer: writing component
`k` through the view is exactly writing the parent buffer at flat offset
`i*3 + k` (`Vec3Array`, 3 components per element) or `i*16 + k`
(`Mat4Array`), the written value is read back from the parent at that
offset, and a write to the parent at that offset is read through the
view; the view structure holds offsets only, so no element data is
copied. -/
theorem C8_at_view_aliasing :
    ∀ (σ : Buffer) (a : TAView) (i k : ℕ) (x : JSNum),
      ta_write σ (vec3Array_at a i) k x = ta_write σ a (i * 3 + k) x ∧
      ta_read (ta_write σ (vec3Array_at a i) k x) a (i * 3 + k) = x ∧
      ta_read (ta_write σ a (i * 3 + k) x) (vec3Array_at a i) k = x ∧
      ta_write σ (mat4Array_at a i) k x = ta_write σ a (i * 16 + k) x ∧
      ta_read (ta_write σ (mat4Array_at a i) k x) a (i * 16 + k) = x ∧
      ta_read (ta_write σ a (i * 16 + k) x) (mat4Array_at a i) k = x := by
  intro σ a i k x
  refine ⟨funext fun j => ?_, ?_, ?_, funext fun j => ?_, ?_, ?_⟩ <;>
    simp [ta_write, ta_read, vec3Array_at, mat4Array_at, ta_subarray,
      Nat.add_assoc]

/-! ## C9: texture units of samplers committed through the reflection layer -/

/-- C9, evaluated at the failing input: reflecting the two-sampler
program gives both samplers texture unit 0, and committing (after
assigning distinct textures 7 and 8) binds **both** textures to texture
unit 0 — the running `textureUnitCount` of `commitProperties` is passed
to `commit`, whose `Sampler2D` implementation takes only
`(gl, uniformLocation)` and ignores it.  The claim that no two samplers
of the same program commit to the same unit fails here. -/
theorem C9_two_samplers_bind_same_unit :
    addProperties progC9 ⟨[], []⟩ =
      .ok ⟨[("texA", samplerC9), ("texB", samplerC9)], []⟩ ∧
    commitProperties progC9
        (reflSetTexture (reflSetTexture
          [("texA", samplerC9), ("texB", samplerC9)] "texA" 7) "texB" 8)
        [] =
      .ok [((0 : Int), some 7), ((0 : Int), some 8)] := by
  constructor <;> rfl

/-! ## C10: `mul()`/`div()` with no arguments -/
/-- C10: calling `mul()` or `div()` with no arguments at all on a `Vec2`,
`Vec3` or `Vec4` does not multiply or divide by 1: the operand coercion
`u && (...)` short-circuits to `undefined`, the compound assignment
coerces it to `NaN`, and every component of the receiver becomes `NaN`. -/
theorem C10_mul_div_no_args_nan :
    ∀ (a : Vec2) (b : Vec3) (c : Vec4),
      vec2_mul a undef undef = ⟨JSNum.nan, JSNum.nan⟩ ∧
      vec2_div a undef undef = ⟨JSNum.nan, JSNum.nan⟩ ∧
      vec3_mul b undef undef undef = ⟨JSNum.nan, JSNum.nan, JSNum.nan⟩ ∧
      vec3_div b undef undef undef = ⟨JSNum.nan, JSNum.nan, JSNum.nan⟩ ∧
      vec4_mul c undef undef undef undef =
        ⟨JSNum.nan, JSNum.nan, JSNum.nan, JSNum.nan⟩ ∧
      vec4_div c undef undef undef undef =
        ⟨JSNum.nan, JSNum.nan, JSNum.nan, JSNum.nan⟩ := by
  intro a b c
  refine ⟨?_, ?_, ?_, ?_, ?_, ?_⟩ <;>
    simp [vec2_mul, vec2_div, vec3_mul, vec3_div, vec4_mul, vec4_div,
      mulCoordFst, mulCoordSnd, jsAnd, getX, getY, getZ, getW]
